import Mathlib

/-!
Verification of the route-registry design of `based-jace/combining-flask-with-vue`.

The repository contains three minimal Flask variants:
* `2. Separate Ends/api/app.py` — a bare app with one route `GET /greeting`;
* `02_separate_ends_with_ssr/api/app.py` — the same app wrapped with `CORS(app)`;
* `03_flask_blueprints/app.py` together with `3. Flask Blueprints/api/api.py`
  and `3. Flask Blueprints/client/client.py` — two blueprints (`api_bp`,
  `client_bp`) registered under the prefixes `/api_v1` and `''`.

The routing machinery itself (mount, finalize, dispatch, static serving) lives
in the Flask framework, not in this repository's files; the specification
describes it as a minimal `Registry` / `RouteGroup` core.  Definitions below
that embed that machinery are marked `Modelled from the spec:`; the route
tables, prefixes, static/template configuration and handler bodies are taken
literally from the repository's source files.
-/

/-- HTTP methods used by the model. -/
inductive Method where
  | GET
  | POST
  | PUT
  | DELETE
deriving DecidableEq

/-- A response body: a flat JSON object (the Python dict literals returned by
the `greeting` handlers) or a rendered HTML template. -/
inductive Body where
  | json : List (String × String) → Body
  | html : String → Body
deriving DecidableEq

/-- An incoming request, as seen by a handler. -/
structure Request where
  method : Method
  path : String
deriving DecidableEq

/-- A handler is a pure function from the request to a body. -/
def Handler : Type := Request → Body

/-- Static-asset configuration of a group: the asset directory and the URL
path under which assets are matched (`static_folder` / `static_url_path` of a
Flask blueprint). -/
structure StaticConf where
  dir : String
  urlPath : String
deriving DecidableEq

/-- Modelled from the spec: a `RouteGroup` (Flask blueprint) — a named
collection of (method, local path, handler) bindings with optional static and
template directories. -/
structure RouteGroup where
  name : String
  routes : List (Method × String × Handler)
  staticConf : Option StaticConf
  templateDir : Option String

/-- Modelled from the spec: the error taxonomy of section 7. -/
inductive RegError where
  | DuplicateRouteError
  | ConfigurationError
  | RouteConflictError
  | NotFound
  | MethodNotAllowed
  | ForbiddenPathError
  | InvalidStateError
deriving DecidableEq

/-- Modelled from the spec: the two registry states. -/
inductive RegState where
  | Building
  | Serving
deriving DecidableEq

/-- Modelled from the spec: the `Registry` — mounted groups plus the resolved
dispatch table. -/
structure Registry where
  state : RegState
  mounts : List (RouteGroup × String)
  table : List (Method × String × Handler)

/-- Modelled from the spec: prefix/local-path join with exactly one `/` at the
seam (on character lists). -/
def joinPath (pre loc : List Char) : List Char :=
  let p := if pre.getLast? = some '/' then pre.dropLast else pre
  let l := if loc.head? = some '/' then loc else '/' :: loc
  p ++ l

/-- String wrapper around `joinPath`. -/
def joinPathS (pre loc : String) : String :=
  String.mk (joinPath pre.toList loc.toList)

/-- Resolve a group's local routes against a mount path. -/
def resolveRoutes (pre : String) (rs : List (Method × String × Handler)) :
    List (Method × String × Handler) :=
  rs.map (fun e => (e.1, joinPathS pre e.2.1, e.2.2))

/-- Does the table already contain an entry for this (method, path) key? -/
def hasKey : List (Method × String × Handler) → Method → String → Bool
  | [], _, _ => false
  | (m', p', _) :: rest, m, p =>
      if m' = m ∧ p' = p then true else hasKey rest m p

/-- Does some entry of the incoming batch collide with the existing table? -/
def anyConflict (table : List (Method × String × Handler)) :
    List (Method × String × Handler) → Bool
  | [] => false
  | (m, p, _) :: rest =>
      if hasKey table m p then true else anyConflict table rest

/-- Is some entry of the table registered at this path (under any method)? -/
def pathKnown : List (Method × String × Handler) → String → Bool
  | [], _ => false
  | (_, p', _) :: rest, p => if p' = p then true else pathKnown rest p

/-- Do all table entries at this path carry the given method? -/
def onlyMethodForPath : List (Method × String × Handler) → Method → String → Bool
  | [], _, _ => true
  | (m', p', _) :: rest, m, p =>
      if p' = p ∧ ¬ m' = m then false else onlyMethodForPath rest m p

/-- First handler registered for the (method, path) key. -/
def findRoute : List (Method × String × Handler) → Method → String → Option Handler
  | [], _, _ => none
  | (m', p', h) :: rest, m, p =>
      if m' = m ∧ p' = p then some h else findRoute rest m p

/-- The empty registry, in the `Building` state. -/
def Registry.empty : Registry :=
  { state := RegState.Building, mounts := [], table := [] }

/-- Modelled from the spec: `mount(group, prefix)` — refuses mounting after
`finalize`, resolves every local path against the mount path and fails fast
with `RouteConflictError` on any (method, resolved path) collision with the
already-built table. -/
def Registry.mount (r : Registry) (g : RouteGroup) (pre : String) :
    Except RegError Registry :=
  if r.state = RegState.Serving then Except.error RegError.InvalidStateError
  else
    let batch := resolveRoutes pre g.routes
    if anyConflict r.table batch then Except.error RegError.RouteConflictError
    else Except.ok
      { state := r.state, mounts := r.mounts ++ [(g, pre)], table := r.table ++ batch }

/-- Modelled from the spec: the one-way `Building -> Serving` transition. -/
def Registry.finalize (r : Registry) : Registry :=
  { r with state := RegState.Serving }

/-- Modelled from the spec: `dispatch(method, path)` — refused before
`finalize`; exact-match lookup, `MethodNotAllowed` when the path is known
under a different method, `NotFound` otherwise. -/
def Registry.dispatch (r : Registry) (m : Method) (p : String) :
    Except RegError Body :=
  if r.state = RegState.Building then Except.error RegError.InvalidStateError
  else
    match findRoute r.table m p with
    | some h => Except.ok (h ⟨m, p⟩)
    | none =>
        if pathKnown r.table p then Except.error RegError.MethodNotAllowed
        else Except.error RegError.NotFound

/-- An HTTP response: status code, headers, optional body. -/
structure Response where
  status : Nat
  headers : List (String × String)
  body : Option Body
deriving DecidableEq

/-- Modelled from the spec: request-time errors become structured responses
(404, 405, 403); configuration-time errors are fatal (rendered 500 here). -/
def respond : Except RegError Body → Response
  | Except.ok b => ⟨200, [], some b⟩
  | Except.error RegError.NotFound => ⟨404, [], none⟩
  | Except.error RegError.MethodNotAllowed => ⟨405, [], none⟩
  | Except.error RegError.ForbiddenPathError => ⟨403, [], none⟩
  | Except.error _ => ⟨500, [], none⟩

/-- Modelled from the spec: the CORS middleware (`flask_cors.CORS(app)`) is an
external collaborator that wraps dispatch, only adding a response header. -/
def corsWrap (d : Method → String → Response) : Method → String → Response :=
  fun m p =>
    let r := d m p
    { r with headers := ("Access-Control-Allow-Origin", "*") :: r.headers }

/-- Strip `pre` from the front of `cs`, returning the remainder on match. -/
def stripPre : List Char → List Char → Option (List Char)
  | [], cs => some cs
  | _ :: _, [] => none
  | p :: ps, c :: cs => if p = c then stripPre ps cs else none

/-- Split a character list into `/`-separated segments. -/
def splitSegs : List Char → List (List Char)
  | [] => [[]]
  | c :: cs =>
      let r := splitSegs cs
      if c = '/' then [] :: r
      else
        match r with
        | [] => [[c]]
        | s :: rest => (c :: s) :: rest

/-- Walk the segments keeping the depth below the asset root; `..` at depth 0
escapes the directory. -/
def escapesFrom : Nat → List (List Char) → Bool
  | _, [] => false
  | d, s :: rest =>
      if s = ['.', '.'] then
        if d = 0 then true else escapesFrom (d - 1) rest
      else if s = ['.'] ∨ s = [] then escapesFrom d rest
      else escapesFrom (d + 1) rest

/-- Does resolving these path segments escape the asset directory? -/
def escapes (segs : List (List Char)) : Bool :=
  escapesFrom 0 segs

/-- Resolve a request path against one static configuration: `none` when the
URL path does not match, otherwise the forbidden-traversal check and the
resolved (directory, remainder) file reference. -/
def resolveStatic (conf : StaticConf) (reqPath : String) :
    Option (Except RegError (String × String)) :=
  match stripPre conf.urlPath.toList reqPath.toList with
  | some rem =>
      if escapes (splitSegs rem) then some (Except.error RegError.ForbiddenPathError)
      else some (Except.ok (conf.dir, String.mk rem))
  | none => none

/-- Modelled from the spec: `serveStatic` walks the mounts in order; the first
group whose static URL path matches wins. -/
def serveStaticAux : List (RouteGroup × String) → String → Except RegError (String × String)
  | [], _ => Except.error RegError.NotFound
  | (g, _) :: rest, reqPath =>
      match g.staticConf with
      | some conf =>
          match resolveStatic conf reqPath with
          | some res => res
          | none => serveStaticAux rest reqPath
      | none => serveStaticAux rest reqPath

/-- Modelled from the spec: `serveStatic(requestPath)` on the registry. -/
def Registry.serveStatic (r : Registry) (reqPath : String) :
    Except RegError (String × String) :=
  serveStaticAux r.mounts reqPath

/-- Does this mount's static configuration match the request path at all? -/
def staticMatches (gp : RouteGroup × String) (reqPath : String) : Bool :=
  match gp.1.staticConf with
  | none => false
  | some conf => (stripPre conf.urlPath.toList reqPath.toList).isSome

/-- `true` when this mount either does not statically match the request path,
or matches it with a remainder that escapes the asset directory. -/
def staticEscapeCheck (gp : RouteGroup × String) (reqPath : String) : Bool :=
  match gp.1.staticConf with
  | none => true
  | some conf =>
      match stripPre conf.urlPath.toList reqPath.toList with
      | none => true
      | some rem => escapes (splitSegs rem)

/-- The (method, resolved path) keys claimed by a registry: its dispatch table
plus, for each mount with static assets, the `GET` static URL path. -/
def staticKeys : List (RouteGroup × String) → List (Method × String)
  | [] => []
  | (g, _) :: rest =>
      match g.staticConf with
      | some conf => (Method.GET, conf.urlPath) :: staticKeys rest
      | none => staticKeys rest

/-- All (method, path) keys registered in the registry. -/
def Registry.registeredKeys (r : Registry) : List (Method × String) :=
  r.table.map (fun e => (e.1, e.2.1)) ++ staticKeys r.mounts

namespace SeparateEnds

/-- Handler `greeting` of `2. Separate Ends/api/app.py`: returns the dict
literal `{'greeting': 'Hello from Flask!'}`. -/
def greeting : Handler :=
  fun _ => Body.json [("greeting", "Hello from Flask!")]

/-- The implicit root group of the bare app: the single decorated route
`@app.route("/greeting")` (method defaults to `GET`). -/
def appGroup : RouteGroup :=
  { name := "app"
    routes := [(Method.GET, "/greeting", greeting)]
    staticConf := none
    templateDir := none }

/-- The bare app of `2. Separate Ends/api/app.py`, built and finalized. -/
def build : Except RegError Registry :=
  (Registry.empty.mount appGroup "").map Registry.finalize

end SeparateEnds

namespace SeparateEndsSSR

/-- Handler `greeting` of `02_separate_ends_with_ssr/api/app.py`: returns the
dict literal `{'greeting': 'Hello from Flask!'}`. -/
def greeting : Handler :=
  fun _ => Body.json [("greeting", "Hello from Flask!")]

/-- The implicit root group of the CORS-wrapped app in
`02_separate_ends_with_ssr/api/app.py`. -/
def appGroup : RouteGroup :=
  { name := "app"
    routes := [(Method.GET, "/greeting", greeting)]
    staticConf := none
    templateDir := none }

/-- The app of `02_separate_ends_with_ssr/api/app.py`, built and finalized. -/
def build : Except RegError Registry :=
  (Registry.empty.mount appGroup "").map Registry.finalize

/-- The served surface of the SSR variant: dispatch wrapped by `CORS(app)`. -/
def serve (r : Registry) : Method → String → Response :=
  corsWrap (fun m p => respond (r.dispatch m p))

end SeparateEndsSSR

namespace FlaskBlueprints

/-- Handler `greeting` of `3. Flask Blueprints/api/api.py`. -/
def greeting : Handler :=
  fun _ => Body.json [("greeting", "Hello from Flask!")]

/-- Modelled from the spec: `render(templateName, context) -> body` — the
`render_template` call; the template's content is outside this core, so the
body records which template was rendered. -/
def render (templateName : String) : Body :=
  Body.html templateName

/-- Handler `index` of `3. Flask Blueprints/client/client.py`: renders
`index.html`. -/
def index : Handler :=
  fun _ => render "index.html"

/-- `api_bp` of `3. Flask Blueprints/api/api.py`: one route `GET /greeting`. -/
def api_bp : RouteGroup :=
  { name := "api_bp"
    routes := [(Method.GET, "/greeting", greeting)]
    staticConf := none
    templateDir := none }

/-- `client_bp` of `3. Flask Blueprints/client/client.py`: route `GET /`,
`template_folder='templates'`, `static_folder='static'`,
`static_url_path='/client/static'`. -/
def client_bp : RouteGroup :=
  { name := "client_bp"
    routes := [(Method.GET, "/", index)]
    staticConf := some { dir := "static", urlPath := "/client/static" }
    templateDir := some "templates" }

/-- The app of `03_flask_blueprints/app.py`: `register_blueprint(api_bp,
url_prefix='/api_v1')` then `register_blueprint(client_bp)` (default mount
path `''`), finalized. -/
def build : Except RegError Registry :=
  (Registry.empty.mount api_bp "/api_v1").bind
    (fun r => (r.mount client_bp "").map Registry.finalize)

end FlaskBlueprints

/-! ### Helper lemmas -/

theorem mount_ok_building {r r1 : Registry} {g : RouteGroup} {pre : String}
    (h : r.mount g pre = Except.ok r1) : r1.state = RegState.Building := by
  unfold Registry.mount at h
  by_cases hs : r.state = RegState.Serving
  · simp [hs] at h
  · by_cases hc : anyConflict r.table (resolveRoutes pre g.routes) = true
    · simp [hs, hc] at h
    · simp [hs, hc] at h
      subst h
      cases hst : r.state with
      | Building => rfl
      | Serving => exact absurd hst hs

theorem anyConflict_of_mem (table : List (Method × String × Handler))
    (pre : String) (rs : List (Method × String × Handler))
    (h : ∃ e ∈ rs, hasKey table e.1 (joinPathS pre e.2.1) = true) :
    anyConflict table (resolveRoutes pre rs) = true := by
  induction rs with
  | nil =>
      obtain ⟨e, he, _⟩ := h
      exact absurd he (List.not_mem_nil e)
  | cons a tail ih =>
      obtain ⟨m, lp, hh⟩ := a
      obtain ⟨e, he, hk⟩ := h
      rcases List.mem_cons.mp he with rfl | htail
      · simp [resolveRoutes, anyConflict, hk]
      · by_cases hkh : hasKey table m (joinPathS pre lp) = true
        · simp [resolveRoutes, anyConflict, hkh]
        · have htl := ih ⟨e, htail, hk⟩
          simp only [resolveRoutes] at htl
          simp [resolveRoutes, anyConflict, hkh, htl]

theorem findRoute_none_of_only (table : List (Method × String × Handler))
    (mG m : Method) (p : String)
    (honly : onlyMethodForPath table mG p = true) (hne : ¬ m = mG) :
    findRoute table m p = none := by
  induction table with
  | nil => rfl
  | cons a tail ih =>
      obtain ⟨m', p', h'⟩ := a
      by_cases hc : m' = m ∧ p' = p
      · exfalso
        have : p' = p ∧ ¬ m' = mG := ⟨hc.2, by rw [hc.1]; exact hne⟩
        simp [onlyMethodForPath, this] at honly
      · have htail : onlyMethodForPath tail mG p = true := by
          by_cases hd : p' = p ∧ ¬ m' = mG
          · simp [onlyMethodForPath, hd] at honly
          · simpa [onlyMethodForPath, hd] using honly
        simp [findRoute, hc, ih htail]

/-! ### Claims -/

/-- C1: mounting the group with the single route `(GET, /greeting)` under the
mount path `/api_v1` (as `03_flask_blueprints/app.py` does with `api_bp`) and
dispatching `GET /api_v1/greeting` after finalization returns exactly the
group's handler output — the JSON object `{"greeting": "Hello from Flask!"}` —
unchanged. -/
theorem c1_mount_then_dispatch_greeting :
    ∃ reg, FlaskBlueprints.build = Except.ok reg ∧
      reg.dispatch Method.GET "/api_v1/greeting" =
        Except.ok (FlaskBlueprints.greeting ⟨Method.GET, "/api_v1/greeting"⟩) ∧
      FlaskBlueprints.greeting ⟨Method.GET, "/api_v1/greeting"⟩ =
        Body.json [("greeting", "Hello from Flask!")] :=
  ⟨_, rfl, rfl, rfl⟩

/-- C5: dispatching `(GET, /greeting)` in both unprefixed variants
(`2. Separate Ends/api/app.py` and `02_separate_ends_with_ssr/api/app.py`)
yields status `200` with the exact JSON body
`{"greeting": "Hello from Flask!"}`. -/
theorem c5_get_greeting_200 :
    (∃ reg, SeparateEnds.build = Except.ok reg ∧
      respond (reg.dispatch Method.GET "/greeting") =
        { status := 200, headers := [],
          body := some (Body.json [("greeting", "Hello from Flask!")]) }) ∧
    (∃ reg, SeparateEndsSSR.build = Except.ok reg ∧
      (SeparateEndsSSR.serve reg Method.GET "/greeting").status = 200 ∧
      (SeparateEndsSSR.serve reg Method.GET "/greeting").body =
        some (Body.json [("greeting", "Hello from Flask!")])) :=
  ⟨⟨_, rfl, rfl⟩, ⟨_, rfl, rfl, rfl⟩⟩

/-- C7: `mount` after `finalize` fails with `InvalidStateError`, `dispatch`
before `finalize` fails with `InvalidStateError`, and the
`Building -> Serving` transition is one-way: `finalize` lands in `Serving`,
from which every further `mount` is refused. -/
theorem c7_lifecycle_invalid_state (r : Registry) (g : RouteGroup) (pre : String)
    (m : Method) (p : String) :
    (r.state = RegState.Serving → r.mount g pre = Except.error RegError.InvalidStateError) ∧
    (r.state = RegState.Building → r.dispatch m p = Except.error RegError.InvalidStateError) ∧
    (r.finalize).state = RegState.Serving ∧
    (r.finalize).mount g pre = Except.error RegError.InvalidStateError := by
  refine ⟨?_, ?_, rfl, ?_⟩
  · intro h
    simp [Registry.mount, h]
  · intro h
    simp [Registry.dispatch, h]
  · simp [Registry.mount, Registry.finalize]

/-- Witness for C7 on concrete registries: dispatch on the still-building
empty registry and mount on a finalized registry are both refused. -/
theorem c7_lifecycle_witness :
    Registry.empty.dispatch Method.GET "/greeting" =
      Except.error RegError.InvalidStateError ∧
    (Registry.empty.finalize).mount FlaskBlueprints.api_bp "/api_v1" =
      Except.error RegError.InvalidStateError :=
  ⟨(c7_lifecycle_invalid_state Registry.empty FlaskBlueprints.api_bp "/api_v1"
      Method.GET "/greeting").2.1 rfl,
   (c7_lifecycle_invalid_state Registry.empty FlaskBlueprints.api_bp "/api_v1"
      Method.GET "/greeting").2.2.2⟩

/-- C8: the `/greeting` handlers of the three variants (the plain app, the
CORS-wrapped app, and the blueprint app) are extensionally equal: on every
request each returns the identical constant body. -/
theorem c8_handlers_extensionally_equal (req : Request) :
    SeparateEnds.greeting req = SeparateEndsSSR.greeting req ∧
    SeparateEndsSSR.greeting req = FlaskBlueprints.greeting req :=
  ⟨rfl, rfl⟩

/-- C9: wrapping with the CORS middleware leaves every dispatch result's body
and status unchanged for every registry and every (method, path); moreover the
CORS-wrapped app of `02_separate_ends_with_ssr/api/app.py` has the same
routing table as the plain app of `2. Separate Ends/api/app.py`, and its
served body agrees with the plain app's dispatch body. -/
theorem c9_cors_frame (m : Method) (p : String) :
    (∀ r : Registry,
      (corsWrap (fun m' p' => respond (r.dispatch m' p')) m p).body =
        (respond (r.dispatch m p)).body ∧
      (corsWrap (fun m' p' => respond (r.dispatch m' p')) m p).status =
        (respond (r.dispatch m p)).status) ∧
    (∃ regP regS, SeparateEnds.build = Except.ok regP ∧
      SeparateEndsSSR.build = Except.ok regS ∧
      regS.table = regP.table ∧
      (SeparateEndsSSR.serve regS m p).body = (respond (regP.dispatch m p)).body) :=
  ⟨fun _ => ⟨rfl, rfl⟩, ⟨_, _, rfl, rfl, rfl, rfl⟩⟩

/-- C10: the fully built blueprint app of `03_flask_blueprints/app.py`
registers the keys `(GET, /api_v1/greeting)` (from `api_bp`), `(GET, /)`
(from `client_bp`) and the static URL path `(GET, /client/static)`, which are
pairwise distinct, so registering both blueprints succeeds. -/
theorem c10_registered_keys_unique :
    ∃ reg, FlaskBlueprints.build = Except.ok reg ∧
      reg.registeredKeys =
        [(Method.GET, "/api_v1/greeting"), (Method.GET, "/"),
         (Method.GET, "/client/static")] ∧
      reg.registeredKeys.Nodup := by
  refine ⟨_, rfl, rfl, ?_⟩
  decide

/-- C2: for any mount list and any request path, if every statically matching
mount resolves the remainder to a path escaping its asset directory (and at
least one mount statically matches), then `serveStatic` returns
`ForbiddenPathError` and never returns a file reference. -/
theorem c2_static_traversal_forbidden (mounts : List (RouteGroup × String))
    (reqPath : String)
    (hall : ∀ gp ∈ mounts, staticEscapeCheck gp reqPath = true)
    (hmatch : ∃ gp ∈ mounts, staticMatches gp reqPath = true) :
    serveStaticAux mounts reqPath = Except.error RegError.ForbiddenPathError ∧
    ∀ contents, serveStaticAux mounts reqPath ≠ Except.ok contents := by
  have hmain : serveStaticAux mounts reqPath = Except.error RegError.ForbiddenPathError := by
    induction mounts with
    | nil =>
        obtain ⟨gp, hgp, _⟩ := hmatch
        exact absurd hgp (List.not_mem_nil gp)
    | cons a rest ih =>
        obtain ⟨g, pre⟩ := a
        have hhead := hall (g, pre) (List.mem_cons_self _ _)
        cases hg : g.staticConf with
        | none =>
            have hrest : ∃ gp ∈ rest, staticMatches gp reqPath = true := by
              obtain ⟨gp, hgp, hm⟩ := hmatch
              rcases List.mem_cons.mp hgp with rfl | htl
              · simp [staticMatches, hg] at hm
              · exact ⟨gp, htl, hm⟩
            simpa [serveStaticAux, hg] using
              ih (fun gp hgp => hall gp (List.mem_cons_of_mem _ hgp)) hrest
        | some conf =>
            cases hs : stripPre conf.urlPath.data reqPath.data with
            | none =>
                have hrest : ∃ gp ∈ rest, staticMatches gp reqPath = true := by
                  obtain ⟨gp, hgp, hm⟩ := hmatch
                  rcases List.mem_cons.mp hgp with rfl | htl
                  · simp [staticMatches, hg, hs] at hm
                  · exact ⟨gp, htl, hm⟩
                simpa [serveStaticAux, hg, resolveStatic, hs] using
                  ih (fun gp hgp => hall gp (List.mem_cons_of_mem _ hgp)) hrest
            | some rem =>
                have hesc : escapes (splitSegs rem) = true := by
                  simpa [staticEscapeCheck, hg, hs] using hhead
                simp [serveStaticAux, hg, resolveStatic, hs, hesc]
  refine ⟨hmain, ?_⟩
  intro contents hcontra
  rw [hmain] at hcontra
  exact Except.noConfusion hcontra

/-- Witness for C2: the client blueprint's static configuration
(`static_url_path='/client/static'`) with the traversal request
`/client/static/../../etc/passwd` yields `ForbiddenPathError`. -/
theorem c2_static_traversal_witness :
    serveStaticAux [(FlaskBlueprints.client_bp, "")]
        "/client/static/../../etc/passwd" =
      Except.error RegError.ForbiddenPathError := by
  refine (c2_static_traversal_forbidden _ _ ?_ ?_).1
  · intro gp hgp
    rw [List.mem_singleton] at hgp
    subst hgp
    decide
  · exact ⟨(FlaskBlueprints.client_bp, ""), List.mem_singleton.mpr rfl, by decide⟩

/-- C3: if a first group was mounted successfully and a second group has a
route whose resolved path collides with the built table under the same
method, then mounting the second group fails with `RouteConflictError` while
the registry is still in the `Building` state (before `finalize`). -/
theorem c3_mount_conflict_before_finalize (r r1 : Registry) (g1 g2 : RouteGroup)
    (pre1 pre2 : String)
    (h1 : r.mount g1 pre1 = Except.ok r1)
    (hov : ∃ e ∈ g2.routes, hasKey r1.table e.1 (joinPathS pre2 e.2.1) = true) :
    r1.state = RegState.Building ∧
    r1.mount g2 pre2 = Except.error RegError.RouteConflictError := by
  have hb : r1.state = RegState.Building := mount_ok_building h1
  refine ⟨hb, ?_⟩
  have hc : anyConflict r1.table (resolveRoutes pre2 g2.routes) = true :=
    anyConflict_of_mem r1.table pre2 g2.routes hov
  simp [Registry.mount, hb, hc]

/-- Witness for C3: mounting `api_bp` at `/api_v1` twice makes the second
mount collide on `(GET, /api_v1/greeting)` and fail with
`RouteConflictError`. -/
theorem c3_mount_conflict_witness :
    ∃ r1, Registry.empty.mount FlaskBlueprints.api_bp "/api_v1" = Except.ok r1 ∧
      r1.mount FlaskBlueprints.api_bp "/api_v1" =
        Except.error RegError.RouteConflictError := by
  refine ⟨_, rfl, ?_⟩
  refine (c3_mount_conflict_before_finalize Registry.empty _ FlaskBlueprints.api_bp
    FlaskBlueprints.api_bp "/api_v1" "/api_v1" rfl ?_).2
  exact ⟨(Method.GET, "/greeting", FlaskBlueprints.greeting),
    List.mem_singleton.mpr rfl, by decide⟩

/-- C4: for a serving registry whose table knows the path `/greeting` but
registers it only for `GET`, dispatching `POST /greeting` returns
`MethodNotAllowed` — not `NotFound`. -/
theorem c4_post_greeting_method_not_allowed (r : Registry)
    (hs : r.state = RegState.Serving)
    (hknown : pathKnown r.table "/greeting" = true)
    (honly : onlyMethodForPath r.table Method.GET "/greeting" = true) :
    r.dispatch Method.POST "/greeting" = Except.error RegError.MethodNotAllowed ∧
    r.dispatch Method.POST "/greeting" ≠ Except.error RegError.NotFound := by
  have hfind : findRoute r.table Method.POST "/greeting" = none :=
    findRoute_none_of_only r.table Method.GET Method.POST "/greeting" honly
      (by decide)
  have hd : r.dispatch Method.POST "/greeting" =
      Except.error RegError.MethodNotAllowed := by
    simp [Registry.dispatch, hs, hfind, hknown]
  refine ⟨hd, ?_⟩
  rw [hd]
  simp

/-- Witness for C4: the bare app of `2. Separate Ends/api/app.py`, which
registers `/greeting` only for `GET`, answers `POST /greeting` with
`MethodNotAllowed`. -/
theorem c4_post_greeting_witness :
    ∃ reg, SeparateEnds.build = Except.ok reg ∧
      reg.dispatch Method.POST "/greeting" =
        Except.error RegError.MethodNotAllowed := by
  refine ⟨_, rfl, ?_⟩
  exact (c4_post_greeting_method_not_allowed _ rfl (by decide) (by decide)).1

theorem dropLast_append_slash (l : List Char) (h : l.getLast? = some '/') :
    l.dropLast ++ ['/'] = l := by
  have hne : l ≠ [] := by
    intro hnil
    rw [hnil] at h
    simp at h
  have hgl : l.getLast? = some (l.getLast hne) := List.getLast?_eq_getLast l hne
  have hch : l.getLast hne = '/' := by
    have := hgl.symm.trans h
    exact Option.some.inj this
  rw [← hch]
  exact List.dropLast_append_getLast hne

/-- C6: `joinPath` — the string join that `mount` applies (via
`resolveRoutes`) to every mounted route — computes the resolved path as the
mount path, then exactly one `/`, then the local path, where the
decomposition point is the seam itself: the left part is the mount path with
at most its trailing slash removed, the right part is the local path with at
most its leading slash removed, and neither part ends or starts with `/` — so
the seam carries exactly one slash, never zero and never two (for inputs
without a doubled slash at the seam edge). -/
theorem c6_seam_exactly_one_slash (pre loc : List Char)
    (hp : pre.getLast? = some '/' → pre.dropLast.getLast? ≠ some '/')
    (hl : loc.head? = some '/' → loc.tail.head? ≠ some '/') :
    ∃ a b, joinPath pre loc = a ++ '/' :: b ∧
      (a = pre ∨ a ++ ['/'] = pre) ∧
      ('/' :: b = loc ∨ b = loc) ∧
      a.getLast? ≠ some '/' ∧ b.head? ≠ some '/' ∧
      ∀ (m : Method) (h : Handler) (pr lp : String),
        pr.data = pre → lp.data = loc →
        resolveRoutes pr [(m, lp, h)] = [(m, String.mk (a ++ '/' :: b), h)] := by
  have key : ∀ a b, joinPath pre loc = a ++ '/' :: b →
      (a = pre ∨ a ++ ['/'] = pre) → ('/' :: b = loc ∨ b = loc) →
      a.getLast? ≠ some '/' → b.head? ≠ some '/' →
      ∃ a' b', joinPath pre loc = a' ++ '/' :: b' ∧
        (a' = pre ∨ a' ++ ['/'] = pre) ∧
        ('/' :: b' = loc ∨ b' = loc) ∧
        a'.getLast? ≠ some '/' ∧ b'.head? ≠ some '/' ∧
        ∀ (m : Method) (h : Handler) (pr lp : String),
          pr.data = pre → lp.data = loc →
          resolveRoutes pr [(m, lp, h)] = [(m, String.mk (a' ++ '/' :: b'), h)] := by
    intro a b hmain hpa hlb ha hb
    refine ⟨a, b, hmain, hpa, hlb, ha, hb, ?_⟩
    intro m h pr lp hpr hlp
    simp [resolveRoutes, joinPathS, String.toList, hpr, hlp, hmain]
  by_cases hpe : pre.getLast? = some '/' <;> by_cases hle : loc.head? = some '/'
  · cases loc with
    | nil => simp at hle
    | cons c t =>
        have hc : c = '/' := by simpa using hle
        subst hc
        exact key pre.dropLast t (by simp [joinPath, hpe])
          (Or.inr (dropLast_append_slash pre hpe)) (Or.inl rfl)
          (hp hpe) (by simpa using hl rfl)
  · exact key pre.dropLast loc (by simp [joinPath, hpe, hle])
      (Or.inr (dropLast_append_slash pre hpe)) (Or.inr rfl) (hp hpe) hle
  · cases loc with
    | nil => simp at hle
    | cons c t =>
        have hc : c = '/' := by simpa using hle
        subst hc
        exact key pre t (by simp [joinPath, hpe]) (Or.inl rfl) (Or.inl rfl)
          hpe (by simpa using hl rfl)
  · exact key pre loc (by simp [joinPath, hpe, hle]) (Or.inl rfl) (Or.inr rfl)
      hpe hle

/-- Witness for C6 at the repository's mount: path `/api_v1` joined with the
local path `/greeting` splits at the seam as `/api_v1` ++ `/` ++ `greeting`,
with the left part the full mount path and the right part the local path
minus its leading slash. -/
theorem c6_seam_witness :
    ∃ a b, joinPath "/api_v1".data "/greeting".data = a ++ '/' :: b ∧
      (a = "/api_v1".data ∨ a ++ ['/'] = "/api_v1".data) ∧
      ('/' :: b = "/greeting".data ∨ b = "/greeting".data) ∧
      a.getLast? ≠ some '/' ∧ b.head? ≠ some '/' ∧
      ∀ (m : Method) (h : Handler) (pr lp : String),
        pr.data = "/api_v1".data → lp.data = "/greeting".data →
        resolveRoutes pr [(m, lp, h)] = [(m, String.mk (a ++ '/' :: b), h)] :=
  c6_seam_exactly_one_slash "/api_v1".data "/greeting".data (by decide) (by decide)
